import Mathlib

/-!
Verification of the GRBL device-interface layer of the cnc_video repository
(`src/grbl.py`, with helpers from `src/util.py`).

The Python source is embedded shallowly:

- Python byte strings are Lean `String`s (the protocol traffic is ASCII, so
  `String.length` equals the byte count);
- `str.strip()` is `pyStrip`, built from `List.dropWhile` and Mathlib's
  `List.rdropWhile` over the character list, using Python's whitespace set;
- the serial device is an environment parameter: each embedded operation takes
  the lines the device would deliver (and, where relevant, the value of
  `inWaiting()` at each poll) as explicit arguments;
- Python values that may be `None` live in `Option`; an uncaught Python
  exception is `Except.error ()` (or an overall `none` result where noted).
-/

/-! ## Python string primitives -/

/-- The whitespace characters stripped by Python's `str.strip()`. -/
def isPySpace (c : Char) : Bool :=
  c = ' ' || c = '\t' || c = '\n' || c = '\r' || c = '\x0b' || c = '\x0c'

/-- Character-list form of Python `str.strip()`: remove leading and trailing
whitespace. -/
def stripChars (cs : List Char) : List Char :=
  List.rdropWhile isPySpace (cs.dropWhile isPySpace)

/-- Python `str.strip()` on a string value. -/
def pyStrip (s : String) : String :=
  String.mk (stripChars s.data)

/-- Python `str.startswith(pre)` on character lists. -/
def startsWithL : List Char → List Char → Bool
  | [], _ => true
  | _ :: _, [] => false
  | a :: as, b :: bs => a == b && startsWithL as bs

/-- Python `hay.find(sub) >= 0`: does `sub` occur as a contiguous substring of
`hay`?  (`"".find("") == 0`, so the empty needle is always found.) -/
def hasSub : List Char → List Char → Bool
  | [], sub => sub.isEmpty
  | h :: t, sub => startsWithL sub (h :: t) || hasSub t sub

/-- Python `s.startswith(pre)` on strings. -/
def pyStartswith (s pre : String) : Bool :=
  startsWithL pre.data s.data

/-! ## Flow control: `GrblDevice.writeGcodes` (src/grbl.py lines 431-448)

The drain loop body reads one stripped response line and either records it and
retires the oldest accounting entry (`del lineLengths[0]`) when the line is
recognized, or merely logs it.  Recognition in the source is
`resp.find("ok") >= 0 or resp.find("error") >= 0` — substring containment. -/

/-- Firmware receive-buffer capacity, `GRBL_RX_BUFFER_SIZE` (src/grbl.py line 28). -/
def GRBL_RX_BUFFER_SIZE : Nat := 128

/-- The source's drain-loop classification of a response line: the line is
counted as a terminal acknowledgment when `resp.find("ok") >= 0` or
`resp.find("error") >= 0` (substring containment, src/grbl.py line 440). -/
def isTerminalResp (resp : String) : Bool :=
  hasSub resp.data "ok".data || hasSub resp.data "error".data

/-- One iteration of the drain-loop body of `writeGcodes` (src/grbl.py lines
439-444), applied to an already-stripped response line `resp`:

- unknown line (no `ok`/`error` substring): logged only, nothing retired;
- recognized line: appended to `responses` and the oldest entry of
  `lineLengths` removed (`del lineLengths[0]`); if `lineLengths` is empty that
  statement raises `IndexError`, modelled as `none`. -/
def drainStep (responses : List (Option String)) (lineLengths : List Nat)
    (resp : String) : Option (List (Option String) × List Nat) :=
  if isTerminalResp resp then
    match lineLengths with
    | [] => none
    | _ :: rest => some (responses ++ [some resp], rest)
  else
    some (responses, lineLengths)

/-- The drain loop of `writeGcodes` (src/grbl.py lines 437-444):
`while sum(lineLengths) >= GRBL_RX_BUFFER_SIZE - 1 or self.dev.inWaiting(): ...`.

The serial environment is `oracle`: at each evaluation of the loop condition it
supplies the current value of `inWaiting()` and the raw line `readline()` would
deliver.  When the oracle is exhausted the device is silent: a forced wait
(`sum >= capacity - 1`) then never terminates, modelled as `none`; otherwise
the loop exits.  Returns the remaining oracle and the updated `responses` and
`lineLengths`. -/
def drainLoop : List (Bool × String) → List (Option String) → List Nat →
    Option (List (Bool × String) × List (Option String) × List Nat)
  | [], responses, lineLengths =>
    if GRBL_RX_BUFFER_SIZE - 1 ≤ lineLengths.sum then none
    else some ([], responses, lineLengths)
  | (waiting, raw) :: evs, responses, lineLengths =>
    if GRBL_RX_BUFFER_SIZE - 1 ≤ lineLengths.sum ∨ waiting = true then
      match drainStep responses lineLengths (pyStrip raw) with
      | none => none
      | some (rs, ls) => drainLoop evs rs ls
    else
      some ((waiting, raw) :: evs, responses, lineLengths)

/-- The flow-accounting byte length `len(line) + 1` recorded by `writeGcodes`
for a (stripped) line (src/grbl.py line 436): length of the stripped text plus
the `'\n'` terminator appended by `sendLine`. -/
def gcodeLineLength (line : String) : Nat :=
  (pyStrip line).length + 1

/-- The body of `GrblDevice.writeGcodes` (src/grbl.py lines 431-448).

Arguments beyond the gcode list are the serial environment: `oracle` drives the
drain loop (see `drainLoop`) and `sendResps` supplies, per transmitted line,
the immediate response that `sendLine` returns (possibly `none`).

The result pairs the trace of `lineLengths` as it stands at each `sendLine`
call (immediately after the admitted line's length is appended and the drain
loop has exited) with the final `(remaining oracle, responses, lineLengths)`
state, or `none` if the drain loop got stuck.

The Python function itself falls off the end without a return statement (its
`#### FIXME fix return values` comment notes this), so its caller receives
`None`; the state returned here is the loop's internal data, exposed for
analysis. -/
def writeGcodesAux : List String → List (Bool × String) → List (Option String) →
    List (Option String) → List Nat →
    List (List Nat) × Option (List (Bool × String) × List (Option String) × List Nat)
  | [], oracle, _sendResps, responses, lineLengths =>
    ([], some (oracle, responses, lineLengths))
  | line :: gcodes, oracle, sendResps, responses, lineLengths =>
    let l := pyStrip line
    let lls := lineLengths ++ [l.length + 1]
    match drainLoop oracle responses lls with
    | none => ([], none)
    | some (evs, rs, ls) =>
      let out := writeGcodesAux gcodes evs sendResps.tail (rs ++ [sendResps.headD none]) ls
      (ls :: out.1, out.2)

/-- `GrblDevice.writeGcodes` run from its initial state (`responses = []`,
`lineLengths = []`). -/
def writeGcodes (gcodes : List String) (oracle : List (Bool × String))
    (sendResps : List (Option String)) :
    List (List Nat) × Option (List (Bool × String) × List (Option String) × List Nat) :=
  writeGcodesAux gcodes oracle sendResps [] []

example : pyStrip " G1 X10 " = "G1 X10" := by decide
example : isTerminalResp "ok" = true := by decide
example : isTerminalResp "[ok]" = true := by decide
example : isTerminalResp "ALARM" = false := by decide
example : writeGcodes ["G1 X10"] [] [none] = ([[7]], some ([], [none], [7])) := by decide

/-! ## Flow-control invariants -/

/-- Whenever the drain loop exits normally, the accounting total is strictly
below `GRBL_RX_BUFFER_SIZE - 1`: the loop keeps draining while
`sum(lineLengths) >= capacity - 1`. -/
theorem drainLoop_sum_lt (evs : List (Bool × String)) :
    ∀ rs lls out, drainLoop evs rs lls = some out →
      out.2.2.sum < GRBL_RX_BUFFER_SIZE - 1 := by
  induction evs with
  | nil =>
    intro rs lls out h
    unfold drainLoop at h
    split at h
    · exact absurd h (by simp)
    · cases h
      rename_i hcond
      show lls.sum < GRBL_RX_BUFFER_SIZE - 1
      omega
  | cons ev evs ih =>
    intro rs lls out h
    obtain ⟨waiting, raw⟩ := ev
    unfold drainLoop at h
    split at h
    · cases hds : drainStep rs lls (pyStrip raw) with
      | none => rw [hds] at h; exact absurd h (by simp)
      | some p => rw [hds] at h; exact ih p.1 p.2 out h
    · cases h
      rename_i hcond
      have hns : ¬ (GRBL_RX_BUFFER_SIZE - 1 ≤ lls.sum) := fun hle => hcond (Or.inl hle)
      show lls.sum < GRBL_RX_BUFFER_SIZE - 1
      omega

/-- Trace version of the invariant for the `writeGcodes` loop: every snapshot
of `lineLengths` taken at a `sendLine` call has total below
`GRBL_RX_BUFFER_SIZE - 1`, for any starting state. -/
theorem writeGcodesAux_trace_lt (gcodes : List String) :
    ∀ oracle sendResps rs lls t,
      t ∈ (writeGcodesAux gcodes oracle sendResps rs lls).1 →
      t.sum < GRBL_RX_BUFFER_SIZE - 1 := by
  induction gcodes with
  | nil =>
    intro oracle sendResps rs lls t ht
    simp [writeGcodesAux] at ht
  | cons line gcodes ih =>
    intro oracle sendResps rs lls t ht
    simp only [writeGcodesAux] at ht
    cases hdl : drainLoop oracle rs (lls ++ [(pyStrip line).length + 1]) with
    | none => rw [hdl] at ht; simp at ht
    | some out =>
      rw [hdl] at ht
      obtain ⟨evs, rs2, ls⟩ := out
      simp only [List.mem_cons] at ht
      cases ht with
      | inl heq =>
        subst heq
        exact drainLoop_sum_lt oracle rs (lls ++ [(pyStrip line).length + 1]) _ hdl
      | inr hmem => exact ih evs sendResps.tail _ ls t hmem

/-- C1: for every sequence of gcode lines admitted by `writeGcodes` and every
interleaving of device responses (retirements), the flow-accounting total
`sum(lineLengths)` — the sum of the in-flight byte lengths, each computed as
the stripped line's length plus one terminator byte — is strictly below the
receive-buffer capacity 128 immediately after each admit, never exceeds
capacity minus one (127) at the instant a new line is transmitted, and is
never negative. -/
theorem writeGcodes_inflight_bound (gcodes : List String)
    (oracle : List (Bool × String)) (sendResps : List (Option String))
    (t : List Nat) (ht : t ∈ (writeGcodes gcodes oracle sendResps).1) :
    t.sum < GRBL_RX_BUFFER_SIZE ∧ t.sum ≤ GRBL_RX_BUFFER_SIZE - 1 ∧ 0 ≤ t.sum := by
  have h := writeGcodesAux_trace_lt gcodes oracle sendResps [] [] t ht
  refine ⟨?_, ?_, Nat.zero_le _⟩ <;> omega

/-- Witness for C1: streaming the single line `"G1 X10"` against a silent
device transmits once with accounting snapshot `[7]`. -/
theorem writeGcodes_inflight_bound_witness :
    [7].sum < GRBL_RX_BUFFER_SIZE ∧ [7].sum ≤ GRBL_RX_BUFFER_SIZE - 1 ∧ 0 ≤ [7].sum :=
  writeGcodes_inflight_bound ["G1 X10"] [] [none] [7] (by decide)

/-- C2: when lines with byte lengths `l1, l2, l3` (and possibly more) are
outstanding in admission order, a terminal response line processed by the
drain-loop body of `writeGcodes` retires exactly the oldest entry `l1`
(`del lineLengths[0]`), leaving `l2, l3, ...` untouched — so exactly one
outstanding entry is retired per terminal response line, first-in-first-out. -/
theorem drainStep_fifo (rs : List (Option String)) (l1 l2 l3 : Nat)
    (rest : List Nat) (r : String) (hterm : isTerminalResp r = true) :
    drainStep rs (l1 :: l2 :: l3 :: rest) r = some (rs ++ [some r], l2 :: l3 :: rest) ∧
    (l2 :: l3 :: rest).length + 1 = (l1 :: l2 :: l3 :: rest).length := by
  constructor
  · simp [drainStep, hterm]
  · simp

/-- Witness for C2: with entries `[7, 8, 9]` outstanding, the terminal line
`"ok"` retires exactly the oldest length 7. -/
theorem drainStep_fifo_witness :
    drainStep [] [7, 8, 9] "ok" = some ([some "ok"], [8, 9]) ∧
    [8, 9].length + 1 = [7, 8, 9].length :=
  drainStep_fifo [] 7 8 9 [] "ok" (by decide)

/-- Counterexample to C3: the response line `"[ok]"` begins with neither `ok`
nor `error`, yet the drain-loop body of `writeGcodes` retires an outstanding
entry for it, because the source tests substring containment
(`resp.find("ok") >= 0`), not a line-initial match. -/
theorem drainStep_retire_counterexample :
    pyStartswith "[ok]" "ok" = false ∧ pyStartswith "[ok]" "error" = false ∧
    drainStep [] [5] "[ok]" = some ([some "[ok]"], []) := by
  decide

/-- C3 as amended: during streaming, a response line retires an outstanding
entry if and only if it contains `ok` or `error` as a substring (the source's
`resp.find` test); a line containing neither is only logged as a warning and
retires no entry, and a terminal line always retires exactly the oldest entry
when one is outstanding. -/
theorem drainStep_retire_iff (rs : List (Option String)) (lls : List Nat)
    (r : String) :
    (isTerminalResp r = false → drainStep rs lls r = some (rs, lls)) ∧
    (isTerminalResp r = true → lls ≠ [] →
      drainStep rs lls r = some (rs ++ [some r], lls.tail)) := by
  constructor
  · intro hf
    simp [drainStep, hf]
  · intro ht hne
    cases lls with
    | nil => exact absurd rfl hne
    | cons l rest => simp [drainStep, ht]

/-- Witness for C3 (amended): the unrecognized line `"ALARM"` retires nothing,
and the terminal line `"error:22"` retires the oldest of `[5, 6]`. -/
theorem drainStep_retire_iff_witness :
    drainStep [] [5, 6] "ALARM" = some ([], [5, 6]) ∧
    drainStep [] [5, 6] "error:22" = some ([some "error:22"], [6]) :=
  ⟨(drainStep_retire_iff [] [5, 6] "ALARM").1 (by decide),
   (drainStep_retire_iff [] [5, 6] "error:22").2 (by decide) (by decide)⟩

/-! ## Settings table and codec (src/grbl.py lines 139-179, 330-347)

Python numeric conversion of a string token:

- `int(tok)` accepts optional surrounding whitespace, an optional sign and a
  nonempty digit run, and raises `ValueError` otherwise (`none` here);
- `float(tok)` accepts the decimal grammar `[sign] (digits [. digits] | . digits)
  [e/E [sign] digits]` (the `inf`/`nan` words never occur in this protocol and
  are omitted); the value is modelled as the exact rational the token denotes;
- `bool(tok)` never raises: it is the truthiness of the string, `True` exactly
  when the token is nonempty. -/

/-- Value of a nonempty digit run, as `int()` computes it. -/
def digitsToNat (ds : List Char) : Nat :=
  ds.foldl (fun n c => n * 10 + (c.toNat - '0'.toNat)) 0

/-- Python `int(tok)` on a token: `none` models the `ValueError` raise. -/
def pyInt (s : List Char) : Option Int :=
  match stripChars s with
  | '+' :: ds => if !ds.isEmpty && ds.all Char.isDigit then some (digitsToNat ds) else none
  | '-' :: ds => if !ds.isEmpty && ds.all Char.isDigit then some (-(digitsToNat ds : Int)) else none
  | ds => if !ds.isEmpty && ds.all Char.isDigit then some (digitsToNat ds) else none

/-- Exponent suffix of a float token (after the `e`/`E`). -/
def pyExp (r : List Char) : Option Int :=
  match r with
  | '+' :: ds => if !ds.isEmpty && ds.all Char.isDigit then some (digitsToNat ds) else none
  | '-' :: ds => if !ds.isEmpty && ds.all Char.isDigit then some (-(digitsToNat ds : Int)) else none
  | ds => if !ds.isEmpty && ds.all Char.isDigit then some (digitsToNat ds) else none

/-- Exact rational value of a parsed float: sign, integer digits, fractional
digits, decimal exponent. -/
def floatVal (neg : Bool) (ip fp : List Char) (e : Int) : Rat :=
  let base : Int := (digitsToNat ip * 10 ^ fp.length + digitsToNat fp : Nat)
  let num : Int := if neg then -base else base
  match e with
  | .ofNat k => mkRat (num * 10 ^ k) (10 ^ fp.length)
  | .negSucc k => mkRat num (10 ^ fp.length * 10 ^ (k + 1))

/-- Unsigned part of Python `float(tok)`. -/
def pyFloatBody (t : List Char) (neg : Bool) : Option Rat :=
  let ip := t.takeWhile Char.isDigit
  let r1 := t.dropWhile Char.isDigit
  let frest : List Char × List Char :=
    match r1 with
    | '.' :: r => (r.takeWhile Char.isDigit, r.dropWhile Char.isDigit)
    | _ => ([], r1)
  if ip.isEmpty && frest.1.isEmpty then none
  else
    match frest.2 with
    | [] => some (floatVal neg ip frest.1 0)
    | 'e' :: r => (pyExp r).map (floatVal neg ip frest.1)
    | 'E' :: r => (pyExp r).map (floatVal neg ip frest.1)
    | _ => none

/-- Python `float(tok)` on a token: `none` models the `ValueError` raise. -/
def pyFloat (s : List Char) : Option Rat :=
  match stripChars s with
  | '+' :: t => pyFloatBody t false
  | '-' :: t => pyFloatBody t true
  | t => pyFloatBody t false

/-- Python `bool(tok)`: the truthiness of a string is its nonemptiness. -/
def pyBool (s : List Char) : Bool :=
  !s.isEmpty

/-- The declared value kind of a setting (the `GS_TYPE` field: `int`, `float`
or `bool`). -/
inductive GType where
  | tInt
  | tFloat
  | tBool
deriving DecidableEq

/-- A typed setting value as produced by applying the declared kind's
conversion to the token. -/
inductive GValue where
  | vInt (n : Int)
  | vFloat (q : Rat)
  | vBool (b : Bool)
deriving DecidableEq

/-- `typ(m.group(2))` of the source (src/grbl.py line 342): apply the declared
kind's Python conversion to the token; `none` models an uncaught `ValueError`.
`bool` never fails. -/
def pyCast : GType → List Char → Option GValue
  | .tInt, s => (pyInt s).map GValue.vInt
  | .tFloat, s => (pyFloat s).map GValue.vFloat
  | .tBool, s => some (GValue.vBool (pyBool s))

/-- The settings schema `GRBL_SETTINGS` (src/grbl.py lines 145-179): id
mapped to (default, description, units, kind).  Defaults written as integer
literals in the source are `vInt` here, matching Python's literal types. -/
def GRBL_SETTINGS : List (Nat × GValue × String × String × GType) := [
  (0, .vInt 10, "step pulse", "usec", .tInt),
  (1, .vInt 25, "step idle delay", "msec", .tInt),
  (2, .vInt 0, "step port invert", "bitmask", .tInt),
  (3, .vInt 6, "dir port invert", "bitmask", .tInt),
  (4, .vInt 0, "step enable invert", "boolean", .tBool),
  (5, .vInt 0, "limit pins invert", "boolean", .tBool),
  (6, .vInt 0, "probe pin invert", "boolean", .tBool),
  (10, .vInt 3, "status report", "bitmask", .tInt),
  (11, .vFloat 0.020, "junction deviation", "mm", .tFloat),
  (12, .vFloat 0.002, "arc tolerance", "mm", .tFloat),
  (13, .vInt 0, "report inches", "boolean", .tBool),
  (20, .vInt 0, "soft limits", "boolean", .tBool),
  (21, .vInt 0, "hard limits", "boolean", .tBool),
  (22, .vInt 0, "homing cycle", "boolean", .tBool),
  (23, .vInt 1, "homing dir invert", "bitmask", .tInt),
  (24, .vFloat 50.000, "homing feed", "mm/min", .tFloat),
  (25, .vFloat 635.000, "homing seek", "mm/min", .tFloat),
  (26, .vInt 250, "homing debounce", "msec", .tInt),
  (27, .vFloat 1.000, "homing pull-off", "mm", .tFloat),
  (30, .vFloat 1.0, "RPM max", "rpm", .tFloat),
  (31, .vFloat 0.0, "RPM min", "rpm", .tFloat),
  (100, .vFloat 314.961, "x", "step/mm", .tFloat),
  (101, .vFloat 314.961, "y", "step/mm", .tFloat),
  (102, .vFloat 314.961, "z", "step/mm", .tFloat),
  (110, .vFloat 635.000, "x max rate", "mm/min", .tFloat),
  (111, .vFloat 635.000, "y max rate", "mm/min", .tFloat),
  (112, .vFloat 635.000, "z max rate", "mm/min", .tFloat),
  (120, .vFloat 50.000, "x accel", "mm/sec^2", .tFloat),
  (121, .vFloat 50.000, "y accel", "mm/sec^2", .tFloat),
  (122, .vFloat 50.000, "z accel", "mm/sec^2", .tFloat),
  (130, .vFloat 225.000, "x max travel", "mm", .tFloat),
  (131, .vFloat 125.000, "y max travel", "mm", .tFloat),
  (132, .vFloat 170.000, "z max travel", "mm", .tFloat)]

/-- `GRBL_SETTINGS[num]` as a lookup; `none` is Python's `KeyError`. -/
def grblSettingsLookup (n : Nat) : Option (GValue × String × String × GType) :=
  (GRBL_SETTINGS.find? (fun p => p.1 == n)).map Prod.snd

/-- `GRBL_SETTINGS[num][GS_TYPE]` (src/grbl.py line 341). -/
def grblSettingType (n : Nat) : Option GType :=
  (grblSettingsLookup n).map (fun q => q.2.2.2)

/-- Tail of a settings line after the mandatory space: the regex's `.*$`,
where `.` does not match a newline and `$` also matches just before one
trailing newline. -/
def dotStarEnd (cs : List Char) : Bool :=
  cs.count '\n' == 0 || (cs.count '\n' == 1 && cs.getLast? == some '\n')

/-- Python `re.match` against the settings pattern
`^\$([0-9]+)=([^ ]*) .*$` (src/grbl.py line 335), returning the two captured
groups (digit run, value token).  Both quantified groups are effectively
maximal: `[0-9]+` cannot give back a digit to the literal `=`, and `[^ ]*`
cannot give back a non-space character to the literal space. -/
def matchSettingLine (line : String) : Option (List Char × List Char) :=
  match line.data with
  | '$' :: rest =>
    let ds := rest.takeWhile Char.isDigit
    if ds.isEmpty then none
    else
      match rest.dropWhile Char.isDigit with
      | '=' :: r2 =>
        let tok := r2.takeWhile (fun c => !(c == ' '))
        match r2.dropWhile (fun c => !(c == ' ')) with
        | ' ' :: r4 => if dotStarEnd r4 then some (ds, tok) else none
        | _ => none
      | _ => none
  | _ => none

/-- A decoded settings snapshot: the Python dict, as an insertion-ordered
association list with at most one entry per key. -/
abbrev SettingsDict := List (Nat × GValue)

instance {ε α : Type _} [DecidableEq ε] [DecidableEq α] : DecidableEq (Except ε α) :=
  fun a b =>
  match a, b with
  | .ok x, .ok y => if h : x = y then isTrue (by simp [h]) else isFalse (by simp [h])
  | .error x, .error y => if h : x = y then isTrue (by simp [h]) else isFalse (by simp [h])
  | .ok _, .error _ => isFalse (by simp)
  | .error _, .ok _ => isFalse (by simp)

/-- `settings[num] = val` on a Python dict: replace an existing binding in
place, else append. -/
def dictInsert (d : SettingsDict) (k : Nat) (v : GValue) : SettingsDict :=
  if d.any (fun p => p.1 == k) then
    d.map (fun p => if p.1 == k then (k, v) else p)
  else d ++ [(k, v)]

/-- The key set of a snapshot. -/
def dictKeys (d : SettingsDict) : List Nat :=
  d.map Prod.fst

/-- The `for line in lines` loop of `GrblDevice._parseGrblSettings`
(src/grbl.py lines 336-346): skip non-matching lines, look the id up in the
schema (`KeyError` for an unknown id is `Except.error`), convert the token
with the declared kind (`ValueError` likewise), and store the value.  The
source's `if val is None: return None` is unreachable because `int`, `float`
and `bool` return a value or raise, never `None`. -/
def parseLoop : List String → SettingsDict → Except Unit SettingsDict
  | [], acc => .ok acc
  | line :: rest, acc =>
    match matchSettingLine line with
    | none => parseLoop rest acc
    | some (ds, tok) =>
      match grblSettingType (digitsToNat ds) with
      | none => .error ()
      | some ty =>
        match pyCast ty tok with
        | none => .error ()
        | some v => parseLoop rest (dictInsert acc (digitsToNat ds) v)

/-- `GrblDevice._parseGrblSettings(lines)` (src/grbl.py lines 330-347):
returns Python `None` (`.ok none`) for an empty line list, else the decoded
dict; `Except.error` is an uncaught exception. -/
def parseGrblSettings (lines : List String) : Except Unit (Option SettingsDict) :=
  if lines.isEmpty then .ok none
  else (parseLoop lines []).map some

example : matchSettingLine "$100=314.961 (x, step/mm)" =
    some ("100".data, "314.961".data) := by decide
example : parseGrblSettings ["$100=314.961 (x, step/mm)"] =
    .ok (some [(100, .vFloat (mkRat 314961 1000))]) := by decide
example : parseGrblSettings ["$0=10 (step pulse, usec)"] =
    .ok (some [(0, .vInt 10)]) := by decide
example : parseGrblSettings ["$4=0 (step enable invert)"] =
    .ok (some [(4, .vBool true)]) := by decide

/-! ## `GrblDevice.getSettings` (src/grbl.py lines 361-377) -/

/-- The response list assembled by `getSettings`: the immediate response `r1`
of the `$$` dollar command (appended only if truthy, i.e. a nonempty string)
followed by the lines gathered within the 3-second quiescence window. -/
def getSettingsResps (r1 : Option String) (gathered : List String) : List String :=
  (match r1 with
   | some s => if s = "" then [] else [s]
   | none => []) ++ gathered

/-- The responses actually parsed: `if resps[-1].startswith("ok"): del resps[-1]`. -/
def trimmedResps (r1 : Option String) (gathered : List String) : List String :=
  let resps := getSettingsResps r1 gathered
  if pyStartswith (resps.getLastD "") "ok" then resps.dropLast else resps

/-- `GrblDevice.getSettings` as a state transformer on the stored snapshot
`self.settings`.  Result: (the stored snapshot after the call, `some` of the
Python return value, or `none` in that position if an exception propagated —
in which case the assignment `self.settings = ...` never executed and the old
snapshot survives).  Note the source assigns `self.settings` from the parse
result before testing `if not self.settings`, so a falsy parse result (`None`
or the empty dict) is stored even though the call reports failure. -/
def getSettings (settingsOld : Option SettingsDict) (r1 : Option String)
    (gathered : List String) : Option SettingsDict × Option (Option SettingsDict) :=
  let resps := getSettingsResps r1 gathered
  if resps.length < 1 then (settingsOld, some none)
  else
    match parseGrblSettings (trimmedResps r1 gathered) with
    | .error _ => (settingsOld, none)
    | .ok s => if s = none ∨ s = some [] then (s, some none) else (s, some s)

/-! ## Settings-codec claims -/

/-- Inserting into a snapshot adds no key other than the inserted one. -/
theorem mem_dictKeys_dictInsert (d : SettingsDict) (k : Nat) (v : GValue)
    (x : Nat) (hx : x ∈ dictKeys (dictInsert d k v)) : x ∈ dictKeys d ∨ x = k := by
  unfold dictInsert at hx
  unfold dictKeys at hx ⊢
  split at hx
  · rw [List.map_map] at hx
    rcases List.mem_map.mp hx with ⟨p, hp, hfst⟩
    simp only [Function.comp] at hfst
    by_cases hk : (p.1 == k) = true
    · rw [if_pos hk] at hfst
      right
      exact hfst.symm
    · rw [if_neg hk] at hfst
      left
      exact List.mem_map.mpr ⟨p, hp, hfst⟩
  · rw [List.map_append] at hx
    rcases List.mem_append.mp hx with h | h
    · exact Or.inl h
    · right
      simpa using h

/-- Every key the parse loop ever stores is a key of the schema: a matching
line whose id is outside the schema raises (`KeyError`) instead. -/
theorem parseLoop_keys (lines : List String) :
    ∀ acc d, parseLoop lines acc = .ok d →
      (∀ x ∈ dictKeys acc, (grblSettingsLookup x).isSome = true) →
      ∀ x ∈ dictKeys d, (grblSettingsLookup x).isSome = true := by
  induction lines with
  | nil =>
    intro acc d h hacc
    unfold parseLoop at h
    cases h
    exact hacc
  | cons line rest ih =>
    intro acc d h hacc
    unfold parseLoop at h
    split at h
    · exact ih acc d h hacc
    · rename_i ds tok hm
      split at h
      · exact absurd h (by simp)
      · rename_i ty hty
        split at h
        · exact absurd h (by simp)
        · rename_i v hc
          refine ih _ d h ?_
          intro x hx
          rcases mem_dictKeys_dictInsert _ _ _ _ hx with hmem | heq
          · exact hacc x hmem
          · subst heq
            unfold grblSettingType at hty
            cases hl : grblSettingsLookup (digitsToNat ds) with
            | none =>
              rw [hl] at hty
              exact absurd hty (by simp)
            | some q => simp [hl]

/-- Counterexample to C4: on the single well-formed settings line `$0=10 ...`,
`_parseGrblSettings` succeeds and exposes the one-key snapshot `{0: 10}`,
whose key set is a proper subset of the schema key set (id 1, among others, is
in the schema but not in the snapshot) — there is no `IncompleteSettings`
check at all. -/
theorem parseGrblSettings_partial_counterexample :
    parseGrblSettings ["$0=10 (step pulse, usec)"] = .ok (some [(0, .vInt 10)]) ∧
    dictKeys [(0, GValue.vInt 10)] = [0] ∧
    (grblSettingsLookup 1).isSome = true ∧
    (dictKeys [(0, GValue.vInt 10)]).contains 1 = false := by
  decide

/-- C4 as amended: the settings batch decoder returns Python `None` exactly
when the input line list is empty; any snapshot it returns mentions only
schema keys, but its key set is not checked for completeness and may be any
subset of the schema key set (the decoder never fails on key-set grounds). -/
theorem parseGrblSettings_amended (lines : List String) :
    (parseGrblSettings lines = .ok none ↔ lines = []) ∧
    (∀ d, parseGrblSettings lines = .ok (some d) →
      ∀ x ∈ dictKeys d, (grblSettingsLookup x).isSome = true) := by
  constructor
  · constructor
    · intro h
      unfold parseGrblSettings at h
      split at h
      · rename_i hemp
        exact List.isEmpty_iff.mp hemp
      · cases hp : parseLoop lines [] with
        | ok d => rw [hp] at h; exact absurd h (by simp [Except.map])
        | error e => rw [hp] at h; exact absurd h (by simp [Except.map])
    · intro h
      subst h
      rfl
  · intro d h x hx
    unfold parseGrblSettings at h
    split at h
    · exact absurd h (by simp)
    · cases hp : parseLoop lines [] with
      | ok d2 =>
        rw [hp] at h
        simp only [Except.map] at h
        injection h with h1
        injection h1 with h2
        subst h2
        exact parseLoop_keys lines [] d2 hp (by simp [dictKeys]) x hx
      | error e =>
        rw [hp] at h
        exact absurd h (by simp [Except.map])

/-- Witness for C4 (amended): the empty batch decodes to `None`, and the
single-line batch above yields a snapshot whose only key, 0, is a schema key. -/
theorem parseGrblSettings_amended_witness :
    parseGrblSettings [] = .ok none ∧ (grblSettingsLookup 0).isSome = true :=
  ⟨(parseGrblSettings_amended []).1.mpr rfl,
   (parseGrblSettings_amended ["$0=10 (step pulse, usec)"]).2
     [(0, GValue.vInt 10)] (by decide) 0 (by decide)⟩

/-- C6: the settings decoder applied to the encoded boolean line
`$4=0 (step enable invert)` — id 4 is declared boolean and `0` encodes
`False` — yields `True`, because the source applies Python `bool` to the
token string and every nonempty string is truthy.  The decoded value differs
from the encoded one, so decode is not inverse to encode on boolean ids. -/
theorem parseGrblSettings_bool_code_bug :
    grblSettingType 4 = some .tBool ∧
    parseGrblSettings ["$4=0 (step enable invert)"] = .ok (some [(4, .vBool true)]) ∧
    decide (GValue.vBool true = GValue.vBool false) = false ∧
    pyCast .tBool "0".data = some (.vBool true) ∧
    pyCast .tBool "garbage".data = some (.vBool true) := by
  refine ⟨by decide, by decide, by decide, by decide, by decide⟩

/-- Counterexample to C8: with a prior snapshot `{0: 10}` stored, a
`getSettings` execution whose only response line is the informational
`"Grbl 1.0c"` (so the parse produces the falsy empty dict and the call
returns `None`) overwrites the stored snapshot with that empty dict — the
previously stored snapshot does not remain unchanged on a failed query. -/
theorem getSettings_destroys_counterexample :
    getSettings (some [(0, .vInt 10)]) (some "Grbl 1.0c") [] = (some [], some none) ∧
    decide (some ([] : SettingsDict) = some [(0, GValue.vInt 10)]) = false := by
  refine ⟨by decide, by decide⟩

/-- C8 as amended: `getSettings` assigns the parse result to the stored
snapshot before testing success, so the prior snapshot survives only the
no-responses path (and the uncaught-exception path, where the assignment never
runs); in every execution that collected at least one response line and whose
parse returned, the stored snapshot becomes the parse result — even when that
result is the falsy `None`/empty dict of a failed query. -/
theorem getSettings_replacement (settingsOld : Option SettingsDict)
    (r1 : Option String) (gathered : List String) :
    (getSettingsResps r1 gathered = [] →
      getSettings settingsOld r1 gathered = (settingsOld, some none)) ∧
    (∀ s, parseGrblSettings (trimmedResps r1 gathered) = .ok s →
      getSettingsResps r1 gathered ≠ [] →
      (getSettings settingsOld r1 gathered).1 = s) ∧
    (parseGrblSettings (trimmedResps r1 gathered) = .error () →
      (getSettings settingsOld r1 gathered).1 = settingsOld) := by
  refine ⟨?_, ?_, ?_⟩
  · intro h
    have hlen : (getSettingsResps r1 gathered).length < 1 := by
      rw [h]
      simp
    simp only [getSettings, if_pos hlen]
  · intro s hs hne
    have hlen : ¬ (getSettingsResps r1 gathered).length < 1 := by
      cases hr : getSettingsResps r1 gathered with
      | nil => exact absurd hr hne
      | cons a t => simp
    simp only [getSettings, hs, if_neg hlen]
    split
    · rfl
    · rfl
  · intro hs
    by_cases hlen : (getSettingsResps r1 gathered).length < 1
    · simp only [getSettings, if_pos hlen]
    · simp only [getSettings, hs, if_neg hlen]

/-- Witness for C8 (amended): in the counterexample execution the stored
snapshot after the call equals the failed parse's empty dict. -/
theorem getSettings_replacement_witness :
    (getSettings (some [(0, GValue.vInt 10)]) (some "Grbl 1.0c") []).1 = some [] :=
  (getSettings_replacement (some [(0, GValue.vInt 10)]) (some "Grbl 1.0c") []).2.1
    (some []) (by decide) (by decide)

/-! ## Session initialization: the reset step (src/grbl.py lines 259-292,
307-311, 417-421)

`waitForResponse` yields the next arriving line or `None` on timeout, and
`gatherResponses` appends lines until the first timeout; the device
environment is therefore the finite list of lines that arrive before the
respective quiescence timeouts. -/

/-- `SerialDevice.gatherResponses` (src/grbl.py lines 279-292): collects the
arrived lines in order and returns the list — always a list, possibly empty,
never Python `None`. -/
def gatherResponses (arrived : List String) : List String :=
  arrived

/-- `GrblDevice.resetGrbl` (src/grbl.py lines 417-421): write the soft-reset
realtime command, flush, sleep 1s, then return `gatherResponses(1.0)`.  The
value is embedded into the `Option` domain of Python results: it is always
`some` of a list. -/
def resetGrbl (arrived : List String) : Option (List String) :=
  some (gatherResponses arrived)

/-- Outcome of the reset step of `GrblDevice.__init__` (src/grbl.py lines
307-311). -/
inductive InitAfterReset where
  | faulted
  | proceeded (resp : List String)
deriving DecidableEq

/-- The reset step of `GrblDevice.__init__`: `resp = self.resetGrbl()`;
`if resp is None: raise RuntimeError` — modelled exactly, the construction
aborts only when the reset result is Python `None`. -/
def initResetCheck (arrived : List String) : InitAfterReset :=
  match resetGrbl arrived with
  | none => .faulted
  | some r => .proceeded r

/-- C5: an empty gather after the soft reset does not abort the session.
`gatherResponses` returns `[]` (a list, never `None`) when the device stays
silent through the 1-second quiescence timeout, so the guard
`if resp is None` can never fire and `__init__` proceeds for every device
behaviour — contradicting the claimed abort with `NoResetAck`.  The error
path and its log message (`"No response from GRBL device to reset command"`)
are dead code. -/
theorem initResetCheck_never_faults :
    initResetCheck [] = .proceeded [] ∧
    (∀ arrived, initResetCheck arrived = .proceeded (gatherResponses arrived)) :=
  ⟨rfl, fun _ => rfl⟩

/-! ## Realtime commands (src/grbl.py lines 126-137, 399-421)

The source file is Python 2 (`print` statements, `from Queue import Queue`),
where a plain string literal does not process `\u` escape sequences: the
literal `'\u0003'` keeps its backslash and denotes the six characters
`\`, `u`, `0`, `0`, `0`, `3`. -/

/-- `RT_CYCLE_START = '~'` (src/grbl.py line 127). -/
def RT_CYCLE_START : String := "~"

/-- `RT_FEED_HOLD = '!'` (src/grbl.py line 128). -/
def RT_FEED_HOLD : String := "!"

/-- `RT_CURRENT_STATUS = '?'` (src/grbl.py line 129). -/
def RT_CURRENT_STATUS : String := "?"

/-- `RT_RESET_GRBL = '\u0003'` (src/grbl.py line 130): under Python 2 string
literal rules this is the six-character sequence backslash-u-0-0-0-3, not the
single control byte 0x03 intended by the `# Ctrl-X` comment. -/
def RT_RESET_GRBL : String := "\\u0003"

/-- Bytes put on the wire by `GrblDevice.cycleStart` (src/grbl.py line 406):
`self.dev.write(RT_CYCLE_START)`, no terminator appended. -/
def cycleStartWrite : String := RT_CYCLE_START

/-- Bytes put on the wire by `GrblDevice.feedHold` (src/grbl.py line 412). -/
def feedHoldWrite : String := RT_FEED_HOLD

/-- Bytes put on the wire by `GrblDevice.getCurrentStatus` (src/grbl.py
line 400). -/
def getCurrentStatusWrite : String := RT_CURRENT_STATUS

/-- Bytes put on the wire by `GrblDevice.resetGrbl` (src/grbl.py line 418). -/
def resetGrblWrite : String := RT_RESET_GRBL

/-- C7: cycle start, feed hold and status query each transmit exactly their
single byte with no terminator, but the soft-reset write transmits six bytes
— the characters `\u0003` — because the Python 2 literal never produced the
single 0x03 byte the claim (and the source's own `Ctrl-X` comment)
describes. -/
theorem realtimeWrite_bytes :
    cycleStartWrite = "~" ∧ cycleStartWrite.length = 1 ∧
    feedHoldWrite = "!" ∧ feedHoldWrite.length = 1 ∧
    getCurrentStatusWrite = "?" ∧ getCurrentStatusWrite.length = 1 ∧
    resetGrblWrite.data = ['\\', 'u', '0', '0', '0', '3'] ∧
    resetGrblWrite.length = 6 ∧
    decide (resetGrblWrite = String.mk ['\x03']) = false := by
  refine ⟨rfl, rfl, rfl, rfl, rfl, rfl, rfl, rfl, by decide⟩

/-- C9: `writeGcodes` neither waits for outstanding entries to retire nor
returns the per-line outcomes.  Streaming the single line `"G1 X10"` against
a silent device ends with the admitted line still outstanding
(`lineLengths = [7]`) and with the collected responses equal to `[None]` (the
unclassified immediate `sendLine` result) instead of one classified ok/error
outcome for the line; moreover the Python function body has no return
statement (its `#### FIXME fix return values` comment marks this), so the
caller always receives `None` rather than an outcome list. -/
theorem writeGcodes_outcomes_code_bug :
    writeGcodes ["G1 X10"] [] [none] = ([[7]], some ([], [none], [7])) ∧
    ([7] : List Nat).length = 1 ∧
    ([none] : List (Option String)).filter (fun r => r.isSome) = [] := by
  refine ⟨by decide, rfl, rfl⟩

/-! ## `SerialDevice.sendLineRaw` (src/grbl.py lines 221-229) -/

/-- The bytes `SerialDevice.sendLineRaw` writes to the link:
`self.dev.write(line.strip() + "\n")`.  `sendLine` (line 207) and every
queued-command path transmit through this. -/
def sendLineRaw (line : String) : String :=
  pyStrip line ++ "\n"

/-- A list that is a prefix of a `dropWhile p`-fixed list is itself fixed by
`dropWhile p`. -/
theorem dropWhile_fix_of_isPre {p : Char → Bool} {l m : List Char}
    (hpre : l <+: m) (hm : m.dropWhile p = m) : l.dropWhile p = l := by
  cases l with
  | nil => rfl
  | cons a t =>
    obtain ⟨r, hr⟩ := hpre
    rw [← hr] at hm
    by_cases hpa : p a = true
    · exfalso
      rw [List.cons_append, List.dropWhile_cons_of_pos hpa] at hm
      have hle : ((t ++ r).dropWhile p).length ≤ (t ++ r).length :=
        (List.dropWhile_suffix p).sublist.length_le
      rw [hm] at hle
      simp at hle
    · exact List.dropWhile_cons_of_neg hpa

/-- Stripping is idempotent on character lists. -/
theorem stripChars_idem (cs : List Char) : stripChars (stripChars cs) = stripChars cs := by
  unfold stripChars
  have hm : (cs.dropWhile isPySpace).dropWhile isPySpace = cs.dropWhile isPySpace :=
    List.dropWhile_idempotent _ _
  have hfix :
      (List.rdropWhile isPySpace (cs.dropWhile isPySpace)).dropWhile isPySpace =
        List.rdropWhile isPySpace (cs.dropWhile isPySpace) :=
    dropWhile_fix_of_isPre (List.rdropWhile_prefix _ _) hm
  rw [hfix, List.rdropWhile_idempotent]

/-- Python `strip()` is idempotent. -/
theorem pyStrip_idem (s : String) : pyStrip (pyStrip s) = pyStrip s := by
  unfold pyStrip
  rw [show (String.mk (stripChars s.data)).data = stripChars s.data from rfl, stripChars_idem]

/-- C10: for every input string, the bytes transmitted for a queued line are
exactly the input stripped of leading and trailing whitespace followed by one
`'\n'` terminator, and the flow-accounting byte length that `writeGcodes`
records for the line (`len(line) + 1` after stripping) equals exactly the
number of bytes written to the link for that line. -/
theorem sendLineRaw_bytes (line : String) :
    sendLineRaw line = pyStrip line ++ "\n" ∧
    (sendLineRaw line).length = (pyStrip line).length + 1 ∧
    gcodeLineLength line = (sendLineRaw (pyStrip line)).length := by
  refine ⟨rfl, ?_, ?_⟩
  · rw [sendLineRaw, String.length_append]
    rfl
  · rw [gcodeLineLength, sendLineRaw, String.length_append, pyStrip_idem]
    rfl
